import Mathlib

/-!
Verification of the rschat server core: a shallow embedding of the packet
codec, the channel membership engine, the credential store adapter and the
per-session handler arms, with theorems checking the design document's
claims against them.

Sources embedded: src/packet/mod.rs, src/server/session.rs,
src/server/mod.rs, src/db/user.rs, src/crypto/hash.rs.
-/

namespace RsChat

/-- Modulus of the 64-bit usize arithmetic of the target platform
(2 to the power 64, written as a numeral so that omega can use it). -/
def USIZE : Nat := 18446744073709551616

/-- Single-quote character, used in the system join and leave notices. -/
def sq : String := String.singleton (Char.ofNat 39)

/-- JSON values, modelling serde_json::Value. Numbers are integers, which
covers every number the protocol carries. Objects are association lists;
the encoders below never emit a duplicate key, and lookup takes the first
binding like map.get on the parsed map. -/
inductive Json where
  | null : Json
  | bool (b : Bool) : Json
  | num (n : Int) : Json
  | str (s : String) : Json
  | arr (elems : List Json) : Json
  | obj (fields : List (String × Json)) : Json

/-- Field lookup in a JSON object, modelling Map::get of serde_json. -/
def getField : List (String × Json) → String → Option Json
  | [], _ => none
  | (k, v) :: rest, key => if k = key then some v else getField rest key

/-- Message packet of src/packet/mod.rs: id, msg and is_system fields. -/
structure Message where
  id : String
  msg : String
  is_system : Bool
deriving DecidableEq

/-- Message::connection of src/packet/mod.rs: the system join notice. -/
def Message.connection (id : String) : Message :=
  { id := id, msg := sq ++ id ++ sq ++ " has joined", is_system := true }

/-- Message::disconnection of src/packet/mod.rs: the system leave notice. -/
def Message.disconnection (id : String) : Message :=
  { id := id, msg := sq ++ id ++ sq ++ " has left", is_system := true }

/-- User record of src/db/user.rs; the password field holds the hash the
client computed before sending. -/
structure User where
  id : String
  password : String
  bio : Option String
  location : Option String
deriving DecidableEq

/-- Login credential of src/db/user.rs. -/
structure Login where
  guest : Bool
  id : Option String
  password : Option String
deriving DecidableEq

/-- RegisterReq packet: carries the user record to insert. -/
structure RegisterReq where
  user : User

/-- RegisterRes packet: Result of the insertion. -/
structure RegisterRes where
  result : Except String Unit

/-- LoginReq packet: carries the login credential. -/
structure LoginReq where
  login_info : Login

/-- LoginRes packet: Result carrying the assigned id on success. -/
structure LoginRes where
  result : Except String String

/-- FetchReq packet: names the item to fetch. -/
structure FetchReq where
  item : String

/-- FetchRes packet: the item name and a Result carrying arbitrary JSON. -/
structure FetchRes where
  item : String
  result : Except String Json

/-- Modelled from the spec: the GotoReq packet of the section 4.1 taxonomy,
carrying the target channel name. The packet module under src predates the
channel feature, but src/server/mod.rs consumes req.channel_name, so the
struct is reconstructed from the spec table. -/
structure GotoReq where
  channel_name : String

/-- Modelled from the spec: the GotoRes packet of the section 4.1 taxonomy,
a Result carrying the joined channel name. Reconstructed from the spec
table and its construction sites in src/server/mod.rs. -/
structure GotoRes where
  result : Except String String

/-- Connected marker packet. -/
structure Connected where

/-- Exit marker packet. -/
structure Exit where

/-- Packet taxonomy of src/packet/mod.rs, with the two Goto variants that
src/server/mod.rs consumes restored from the spec taxonomy. -/
inductive PacketType where
  | RegisterReq (r : RegisterReq)
  | RegisterRes (r : RegisterRes)
  | LoginReq (r : LoginReq)
  | LoginRes (r : LoginRes)
  | FetchReq (r : FetchReq)
  | FetchRes (r : FetchRes)
  | GotoReq (r : GotoReq)
  | GotoRes (r : GotoRes)
  | Connected (r : Connected)
  | Message (m : Message)
  | Exit (r : Exit)

/-- Serialization of an optional string field, as serde emits it: null for
None, the string otherwise. -/
def encodeOptStr : Option String → Json
  | none => Json.null
  | some s => Json.str s

/-- Serialization of Result with unit payload: an Ok key over null, or an
Err key over the reason string. -/
def encodeResultUnit : Except String Unit → Json
  | .ok _ => Json.obj [("Ok", Json.null)]
  | .error e => Json.obj [("Err", Json.str e)]

/-- Serialization of Result with string payload. -/
def encodeResultStr : Except String String → Json
  | .ok s => Json.obj [("Ok", Json.str s)]
  | .error e => Json.obj [("Err", Json.str e)]

/-- Serialization of Result with arbitrary JSON payload. -/
def encodeResultJson : Except String Json → Json
  | .ok v => Json.obj [("Ok", v)]
  | .error e => Json.obj [("Err", Json.str e)]

/-- Serde serialization of the user record: fields in declaration order. -/
def User.toJson (u : User) : Json :=
  Json.obj [("id", Json.str u.id), ("password", Json.str u.password),
            ("bio", encodeOptStr u.bio), ("location", encodeOptStr u.location)]

/-- Serde serialization of the login credential. -/
def Login.toJson (l : Login) : Json :=
  Json.obj [("guest", Json.bool l.guest), ("id", encodeOptStr l.id),
            ("password", encodeOptStr l.password)]

/-- Serde serialization of each packet with its internal type tag, as the
AsJson trait of src/packet/mod.rs produces it. -/
def PacketType.as_json : PacketType → Json
  | .RegisterReq r => .obj [("type", .str "RegisterReq"), ("user", r.user.toJson)]
  | .RegisterRes r => .obj [("type", .str "RegisterRes"), ("result", encodeResultUnit r.result)]
  | .LoginReq r => .obj [("type", .str "LoginReq"), ("login_info", r.login_info.toJson)]
  | .LoginRes r => .obj [("type", .str "LoginRes"), ("result", encodeResultStr r.result)]
  | .FetchReq r => .obj [("type", .str "FetchReq"), ("item", .str r.item)]
  | .FetchRes r => .obj [("type", .str "FetchRes"), ("item", .str r.item),
                         ("result", encodeResultJson r.result)]
  | .GotoReq r => .obj [("type", .str "GotoReq"), ("channel_name", .str r.channel_name)]
  | .GotoRes r => .obj [("type", .str "GotoRes"), ("result", encodeResultStr r.result)]
  | .Connected _ => .obj [("type", .str "Connected")]
  | .Message m => .obj [("type", .str "Message"), ("id", .str m.id), ("msg", .str m.msg),
                        ("is_system", .bool m.is_system)]
  | .Exit _ => .obj [("type", .str "Exit")]

/-- Deserialization of a required string field. -/
def parseStr : Json → Option String
  | .str s => some s
  | _ => none

/-- Deserialization of an optional string field: absent or null becomes
None, a string becomes Some, anything else is a type error. -/
def parseOptStr : Option Json → Option (Option String)
  | none => some none
  | some Json.null => some none
  | some (Json.str s) => some (some s)
  | some _ => none

/-- Deserialization of Result values: a single-key object tagged Ok or
Err, as serde deserializes the externally tagged representation. -/
def parseResult (pa : Json → Option α) : Json → Option (Except String α)
  | .obj [(k, v)] =>
    if k = "Ok" then (pa v).map Except.ok
    else if k = "Err" then
      match v with
      | .str e => some (.error e)
      | _ => none
    else none
  | _ => none

/-- Deserialization of the unit payload inside an Ok: only null. -/
def parseUnit : Json → Option Unit
  | .null => some ()
  | _ => none

/-- Deserialization of the Message struct from an object; extra fields such
as the type tag are ignored, a missing required field fails. -/
def parseMessage : Json → Option Message
  | .obj fields =>
    match getField fields "id", getField fields "msg", getField fields "is_system" with
    | some (.str id), some (.str m), some (.bool b) => some ⟨id, m, b⟩
    | _, _, _ => none
  | _ => none

/-- Deserialization of the user record. -/
def parseUser : Json → Option User
  | .obj fields =>
    match getField fields "id", getField fields "password" with
    | some (.str i), some (.str p) =>
      match parseOptStr (getField fields "bio"), parseOptStr (getField fields "location") with
      | some b, some l => some ⟨i, p, b, l⟩
      | _, _ => none
    | _, _ => none
  | _ => none

/-- Deserialization of the login credential. -/
def parseLogin : Json → Option Login
  | .obj fields =>
    match getField fields "guest" with
    | some (.bool g) =>
      match parseOptStr (getField fields "id"), parseOptStr (getField fields "password") with
      | some i, some p => some ⟨g, i, p⟩
      | _, _ => none
    | _ => none
  | _ => none

/-- Deserialization of RegisterReq. -/
def parseRegisterReq : Json → Option RegisterReq
  | .obj fields =>
    match getField fields "user" with
    | some uj => (parseUser uj).map RegisterReq.mk
    | none => none
  | _ => none

/-- Deserialization of RegisterRes. -/
def parseRegisterRes : Json → Option RegisterRes
  | .obj fields =>
    match getField fields "result" with
    | some rj => (parseResult parseUnit rj).map RegisterRes.mk
    | none => none
  | _ => none

/-- Deserialization of LoginReq. -/
def parseLoginReq : Json → Option LoginReq
  | .obj fields =>
    match getField fields "login_info" with
    | some lj => (parseLogin lj).map LoginReq.mk
    | none => none
  | _ => none

/-- Deserialization of LoginRes. -/
def parseLoginRes : Json → Option LoginRes
  | .obj fields =>
    match getField fields "result" with
    | some rj => (parseResult parseStr rj).map LoginRes.mk
    | none => none
  | _ => none

/-- Deserialization of FetchReq. -/
def parseFetchReq : Json → Option FetchReq
  | .obj fields =>
    match getField fields "item" with
    | some (.str i) => some ⟨i⟩
    | _ => none
  | _ => none

/-- Deserialization of FetchRes. -/
def parseFetchRes : Json → Option FetchRes
  | .obj fields =>
    match getField fields "item" with
    | some (.str i) =>
      match getField fields "result" with
      | some rj => (parseResult (fun v => some v) rj).map (FetchRes.mk i)
      | none => none
    | _ => none
  | _ => none

/-- Deserialization of GotoReq (spec-modelled packet). -/
def parseGotoReq : Json → Option GotoReq
  | .obj fields =>
    match getField fields "channel_name" with
    | some (.str c) => some ⟨c⟩
    | _ => none
  | _ => none

/-- Deserialization of GotoRes (spec-modelled packet). -/
def parseGotoRes : Json → Option GotoRes
  | .obj fields =>
    match getField fields "result" with
    | some rj => (parseResult parseStr rj).map GotoRes.mk
    | none => none
  | _ => none

/-- Outcome of decoding one inbound frame: a packet, a silent rejection
(from_str returns None), or a crash of the whole coordinator thread. -/
inductive Decoded where
  | parsed (p : PacketType) : Decoded
  | rejected : Decoded
  | panicked : Decoded

/-- Result of the unwrap call that from_str performs on each serde
deserialization: a parse failure does not become None but a panic. -/
def unwrapDecode (o : Option α) (mk : α → PacketType) : Decoded :=
  match o with
  | some a => .parsed (mk a)
  | none => .panicked

/-- PacketType::from_str of src/packet/mod.rs, modelled from the point
where serde_json::from_str has produced a value. A frame that is not valid
JSON returns None before this point; a non-object value, a missing type
field, a non-string type or an unknown type name return None here; a known
type whose payload does not deserialize hits the unwrap and panics. The
two Goto arms are modelled from the spec taxonomy like their structs. -/
def PacketType.from_str (j : Json) : Decoded :=
  match j with
  | .obj fields =>
    match getField fields "type" with
    | some (.str "RegisterReq") => unwrapDecode (parseRegisterReq j) PacketType.RegisterReq
    | some (.str "RegisterRes") => unwrapDecode (parseRegisterRes j) PacketType.RegisterRes
    | some (.str "LoginReq") => unwrapDecode (parseLoginReq j) PacketType.LoginReq
    | some (.str "LoginRes") => unwrapDecode (parseLoginRes j) PacketType.LoginRes
    | some (.str "FetchReq") => unwrapDecode (parseFetchReq j) PacketType.FetchReq
    | some (.str "FetchRes") => unwrapDecode (parseFetchRes j) PacketType.FetchRes
    | some (.str "GotoReq") => unwrapDecode (parseGotoReq j) PacketType.GotoReq
    | some (.str "GotoRes") => unwrapDecode (parseGotoRes j) PacketType.GotoRes
    | some (.str "Message") => unwrapDecode (parseMessage j) PacketType.Message
    | some (.str "Connected") => .parsed (.Connected ⟨⟩)
    | some (.str "Exit") => .parsed (.Exit ⟨⟩)
    | some (.str _) => .rejected
    | some _ => .rejected
    | none => .rejected
  | _ => .rejected

/-! ## Channel membership engine, src/server/session.rs -/

/-- Guest capacity limit NUM_MAX_GUEST. -/
def NUM_MAX_GUEST : Nat := 64

/-- User capacity limit NUM_MAX_USER. -/
def NUM_MAX_USER : Nat := 128

/-- Test for the reserved guest id form, modelling str::starts_with on the
guest tag; for UTF-8 strings the byte prefix test agrees with this
character prefix test. -/
def startsWithGuest (s : String) : Bool :=
  "guest_".data.isPrefixOf s.data

/-- Test for an id beginning with the word root, used by User::insert. -/
def startsWithRoot (s : String) : Bool :=
  "root".data.isPrefixOf s.data

/-- Membership state of one channel: the name set and the two counters,
as struct State of src/server/session.rs holds them. The counters are
64-bit usize values, so increments and decrements wrap modulo USIZE; a
decrement past zero is an arithmetic underflow (debug builds abort there,
release builds wrap silently). -/
structure State where
  names : Finset String
  num_user : Nat
  num_guest : Nat
deriving DecidableEq

/-- Wrapping usize increment. -/
def wrapAdd1 (n : Nat) : Nat := (n + 1) % USIZE

/-- Wrapping usize decrement: equal to n minus 1 for positive n below
USIZE, and to USIZE minus 1 when n is zero (the underflow case). -/
def wrapSub1 (n : Nat) : Nat := (n + (USIZE - 1)) % USIZE

/-- Channel::leave_user of src/server/session.rs: decrement the counter
picked by the guest tag of the name, unconditionally, then remove the name
from the set. The decrement happens whether or not the name is a member. -/
def State.leave_user (c : State) (name : String) : State :=
  if startsWithGuest name then
    { c with num_guest := wrapSub1 c.num_guest, names := c.names.erase name }
  else
    { c with num_user := wrapSub1 c.num_user, names := c.names.erase name }

/-- Channel::add_connection of src/server/session.rs: increment the counter
picked by the guest tag of the name, unconditionally, then insert the name.
The source returns the boolean result of the set insertion, which all of
its callers discard; the model keeps the state change. -/
def State.add_connection (c : State) (name : String) : State :=
  if startsWithGuest name then
    { c with num_guest := wrapAdd1 c.num_guest, names := insert name c.names }
  else
    { c with num_user := wrapAdd1 c.num_user, names := insert name c.names }

/-- Credential rows of the user table; the model of the store is the list
of rows in insertion order. -/
abbrev Db := List User

/-- Login::login of src/db/user.rs, on the row model: the SELECT returns
the id of the first row matching both the id and the password columns, and
anything else is the wrong-credentials error. -/
def login_query (db : Db) (id pw : String) : Except String String :=
  match db.find? (fun u => u.id == id && u.password == pw) with
  | some u => .ok u.id
  | none => .error "Wrong ID or Password"

/-- Channel::connect_user of src/server/session.rs: capacity check, then
the malformed-credential check, then the store query; on success the
current id leaves (unconditionally) and the requested id is added. -/
def State.connect_user (c : State) (req : Login) (cur_id : String) (db : Db) :
    Except String String × State :=
  if c.num_user ≥ NUM_MAX_USER then (.error "too many users", c)
  else
    match req.id, req.password with
    | some uid, some pw =>
      match login_query db uid pw with
      | .ok s => (.ok s, (c.leave_user cur_id).add_connection uid)
      | .error e => (.error e, c)
    | _, _ => (.error "broken login packet", c)

/-- Channel::connect_guest of src/server/session.rs: capacity check, then
insertion of the id the retry loop synthesized. The argument gid stands
for the value the loop broke with, which always carries the guest tag and
is never already a member; theorems about this operation take those two
loop postconditions as hypotheses. -/
def State.connect_guest (c : State) (gid : String) : Except String String × State :=
  if c.num_guest ≥ NUM_MAX_GUEST then (.error "too many guests", c)
  else (.ok gid, c.add_connection gid)

/-- Membership consistency invariant P1 of the spec: the two counters sum
to the cardinality of the name set and partition it by the guest tag. -/
def Inv (c : State) : Prop :=
  c.num_user + c.num_guest = c.names.card ∧
  c.num_guest = (c.names.filter (fun n => startsWithGuest n = true)).card ∧
  c.num_user = (c.names.filter (fun n => startsWithGuest n = false)).card

instance (c : State) : Decidable (Inv c) := by
  unfold Inv
  infer_instance

/-! ## Session handler arms, src/server/mod.rs -/

/-- Effect of the LoginReq arm of session_task: the reply result, the
channel state after the arm, and the packets the arm publishes on the
current channel bus (in order). The slot argument is the value the id cell
holds when the arm locks it; gid stands for the id the guest retry loop
synthesized, as in connect_guest. On a successful login the arm publishes
the system join notice and a Connected marker; on failure it publishes
nothing and leaves the state alone. -/
def handle_login (c : State) (slot : String) (li : Login) (gid : String) (db : Db) :
    Except String String × State × List PacketType :=
  if li.guest then
    if c.num_guest ≥ NUM_MAX_GUEST then (.error "too many guests", c, [])
    else
      (.ok gid, c.add_connection gid,
        [.Message (Message.connection gid), .Connected ⟨⟩])
  else
    if c.num_user ≥ NUM_MAX_USER then (.error "too many users", c, [])
    else
      match li.id, li.password with
      | some uid, some pw =>
        match login_query db uid pw with
        | .ok s =>
          (.ok s, (c.leave_user slot).add_connection uid,
            [.Message (Message.connection s), .Connected ⟨⟩])
        | .error e => (.error e, c, [])
      | _, _ => (.error "broken login packet", c, [])

/-- Channel registry: names mapped to membership states, as Channels of
src/server/session.rs holds them (the bus handles live outside the model;
events published on a bus are listed per handler instead). -/
abbrev Registry := List (String × State)

/-- Channels::get_channel on the registry model: resolve a name. -/
def getChannelState (reg : Registry) (name : String) : Option State :=
  match reg.find? (fun p => p.1 == name) with
  | some p => some p.2
  | none => none

/-- Effect of the GotoReq arm of session_task. -/
structure GotoEffect where
  reply : Except String String
  oldEvents : List PacketType
  newEvents : List PacketType
  registryAfter : Registry
  channelNameAfter : String

/-- GotoReq arm of session_task in src/server/mod.rs: when the target
resolves, cancel the old subscriber, rebind the bus handle, spawn a fresh
subscriber, publish one Connected on the target bus, and record the new
channel name; the reply carries the target name. The arm reads membership
of no channel and writes membership of no channel, and it publishes
nothing on the previous channel bus. When the target does not resolve the
reply is the routing error and nothing changes. -/
def handle_goto (reg : Registry) (curName target : String) : GotoEffect :=
  match getChannelState reg target with
  | some _ =>
    { reply := .ok target
      oldEvents := []
      newEvents := [.Connected ⟨⟩]
      registryAfter := reg
      channelNameAfter := target }
  | none =>
    { reply := .error "Invalid or not permitted to join the channel"
      oldEvents := []
      newEvents := []
      registryAfter := reg
      channelNameAfter := curName }

/-- Message arm of session_task in src/server/mod.rs: the received packet
is forwarded to the current channel bus as it is; no field is rewritten
and the id cell is not consulted. -/
def message_arm (m : Message) : List PacketType :=
  [.Message m]

/-! ## Subscriber task, message_handler of src/server/mod.rs -/

/-- Events a subscriber receives from its bus: a packet, or the lagging
notification of the bounded broadcast queue. -/
inductive BusEvent where
  | pkt (p : PacketType) : BusEvent
  | lagged : BusEvent

/-- Test for a Connected packet event. -/
def isConnEv : BusEvent → Bool
  | .pkt (.Connected _) => true
  | _ => false

/-- One loop iteration of message_handler: given the connected flag, the
bus event and the value the id cell holds at the iteration's lock, return
the new flag and the message forwarded to the writer queue, if any. A
Message is dropped while the flag is down, and dropped when its id equals
the cell; a Connected raises the flag; everything else is skipped. -/
def subscriber_step (connected : Bool) (ev : BusEvent) (slot : String) :
    Bool × Option Message :=
  match ev with
  | .pkt (.Message m) =>
    if connected = false then (connected, none)
    else if slot = m.id then (connected, none)
    else (connected, some m)
  | .pkt (.Connected _) => (true, none)
  | _ => (connected, none)

/-- Run of the subscriber over a trace of bus events paired with the id
cell value observed at each iteration, collecting the messages forwarded
to the writer queue. The run starts when message_handler is spawned and
ends when its cancellation token fires. -/
def subscriber_run (connected : Bool) : List (BusEvent × String) → List Message
  | [] => []
  | (ev, slot) :: rest =>
    match subscriber_step connected ev slot with
    | (c', some m) => m :: subscriber_run c' rest
    | (c', none) => subscriber_run c' rest

/-! ## Credential store adapter, src/db/user.rs and the seed of
src/server/mod.rs -/

/-- User::insert of src/db/user.rs on the row model: reject ids carrying
the guest tag or beginning with root, reject a password hash shorter than
four bytes, and let the primary key constraint reject a duplicate id;
otherwise append exactly the given row. The SQL error text is summarized
by a fixed reason string. -/
def User.insert (u : User) (db : Db) : Except String Unit × Db :=
  if startsWithGuest u.id || startsWithRoot u.id then
    (.error "Reserved id format", db)
  else if u.password.utf8ByteSize < 4 then
    (.error "too short password! (password >= 4)", db)
  else if db.any (fun r => r.id == u.id) then
    (.error "Failed to insert a new user: duplicate id", db)
  else
    (.ok (), db ++ [u])

/-- Seed row of run_server in src/server/mod.rs: the single INSERT the
startup batch performs, with the literal password column value alpine. -/
def rootSeedRow : User :=
  { id := "root", password := "alpine", bio := some "root account", location := some "" }

/-- Credential store contents right after run_server's startup batch. -/
def initial_db : Db := [rootSeedRow]

/-! ## Password hashing, src/crypto/hash.rs: SHA-256 of the salted
password, Base64-encoded. The hash function is embedded bit-for-bit so
that the seeded credential can be compared with the hash the spec names. -/

/-- Modulus of 32-bit word arithmetic. -/
def M32 : Nat := 4294967296

/-- Right rotation of a 32-bit word by n bits. -/
def rotr (n w : Nat) : Nat :=
  (w / 2 ^ n + w % 2 ^ n * 2 ^ (32 - n)) % M32

/-- Bitwise complement of a 32-bit word. -/
def not32 (w : Nat) : Nat := w ^^^ (M32 - 1)

/-- SHA-256 choice function. -/
def ch32 (e f g : Nat) : Nat := (e &&& f) ^^^ (not32 e &&& g)

/-- SHA-256 majority function. -/
def maj32 (a b c : Nat) : Nat := (a &&& b) ^^^ (a &&& c) ^^^ (b &&& c)

/-- SHA-256 big sigma 0. -/
def bsig0 (x : Nat) : Nat := rotr 2 x ^^^ rotr 13 x ^^^ rotr 22 x

/-- SHA-256 big sigma 1. -/
def bsig1 (x : Nat) : Nat := rotr 6 x ^^^ rotr 11 x ^^^ rotr 25 x

/-- SHA-256 small sigma 0. -/
def ssig0 (x : Nat) : Nat := rotr 7 x ^^^ rotr 18 x ^^^ (x / 8)

/-- SHA-256 small sigma 1. -/
def ssig1 (x : Nat) : Nat := rotr 17 x ^^^ rotr 19 x ^^^ (x / 1024)

/-- SHA-256 round constants, written in decimal. -/
def K256 : List Nat :=
  [1116352408, 1899447441, 3049323471, 3921009573, 961987163, 1508970993,
   2453635748, 2870763221, 3624381080, 310598401, 607225278, 1426881987,
   1925078388, 2162078206, 2614888103, 3248222580, 3835390401, 4022224774,
   264347078, 604807628, 770255983, 1249150122, 1555081692, 1996064986,
   2554220882, 2821834349, 2952996808, 3210313671, 3336571891, 3584528711,
   113926993, 338241895, 666307205, 773529912, 1294757372, 1396182291,
   1695183700, 1986661051, 2177026350, 2456956037, 2730485921, 2820302411,
   3259730800, 3345764771, 3516065817, 3600352804, 4094571909, 275423344,
   430227734, 506948616, 659060556, 883997877, 958139571, 1322822218,
   1537002063, 1747873779, 1955562222, 2024104815, 2227730452, 2361852424,
   2428436474, 2756734187, 3204031479, 3329325298]

/-- SHA-256 initial state, written in decimal. -/
def H256 : List Nat :=
  [1779033703, 3144134277, 1013904242, 2773480762,
   1359893119, 2600822924, 528734635, 1541459225]

/-- Big-endian byte expansion of a number into k bytes. -/
def toBytesBE (k n : Nat) : List Nat :=
  match k with
  | 0 => []
  | k + 1 => toBytesBE k (n / 256) ++ [n % 256]

/-- Big-endian 32-bit word from four bytes. -/
def wordOfBytes : List Nat → Nat
  | [a, b, c, d] => ((a * 256 + b) * 256 + c) * 256 + d
  | _ => 0

/-- Split a byte list into 32-bit words. -/
def bytesToWords : List Nat → List Nat
  | a :: b :: c :: d :: rest => wordOfBytes [a, b, c, d] :: bytesToWords rest
  | _ => []

/-- SHA-256 padding: the 0x80 byte, zeros up to 56 modulo 64, then the
bit length in eight big-endian bytes. -/
def padMsg (msg : List Nat) : List Nat :=
  let L := msg.length
  let zeros := (119 - L % 64) % 64
  msg ++ [0x80] ++ List.replicate zeros 0 ++ toBytesBE 8 (8 * L)

/-- Message schedule extension: push the next word 48 times. -/
def extendSched : Nat → Array Nat → Array Nat
  | 0, w => w
  | n + 1, w =>
    let i := w.size
    let nw := (ssig1 (w.getD (i - 2) 0) + w.getD (i - 7) 0 +
               ssig0 (w.getD (i - 15) 0) + w.getD (i - 16) 0) % M32
    extendSched n (w.push nw)

/-- One SHA-256 round on the eight-word working state. -/
def round256 (st : List Nat) (wk : Nat × Nat) : List Nat :=
  match st with
  | [a, b, c, d, e, f, g, h] =>
    let t1 := (h + bsig1 e + ch32 e f g + wk.2 + wk.1) % M32
    let t2 := (bsig0 a + maj32 a b c) % M32
    [(t1 + t2) % M32, a, b, c, (d + t1) % M32, e, f, g]
  | other => other

/-- Compression of one 64-byte block into the chaining state. -/
def compress256 (h : List Nat) (block : List Nat) : List Nat :=
  let ws := (extendSched 48 (bytesToWords block).toArray).toList
  let st := (ws.zip K256).foldl round256 h
  (h.zip st).map (fun p => (p.1 + p.2) % M32)

/-- Split a byte list into 64-byte blocks; the fuel argument makes the
recursion structural, any fuel at least the list length is enough. -/
def chunksAux : Nat → List Nat → List (List Nat)
  | 0, _ => []
  | _, [] => []
  | fuel + 1, l => l.take 64 :: chunksAux fuel (l.drop 64)

/-- Split the padded message into 64-byte blocks. -/
def chunks64 (l : List Nat) : List (List Nat) :=
  chunksAux l.length l

/-- SHA-256 digest of a byte list: 32 bytes. -/
def sha256Bytes (msg : List Nat) : List Nat :=
  (((chunks64 (padMsg msg)).foldl compress256 H256).map (toBytesBE 4)).flatten

/-- Base64 alphabet of the standard encoding with padding, which
base64ct's Base64 implements. -/
def b64Alphabet : List Char :=
  "ABCDEFGHIJKLMNOPQRSTUVWXYZabcdefghijklmnopqrstuvwxyz0123456789+/".data

/-- Character for a 6-bit group. -/
def b64Char (n : Nat) : Char := b64Alphabet.getD n 'A'

/-- Base64 encoding of a byte list, three bytes to four characters with
equals-sign padding. -/
def b64Chars : List Nat → List Char
  | [] => []
  | [a] => [b64Char (a / 4), b64Char (a % 4 * 16), '=', '=']
  | [a, b] => [b64Char (a / 4), b64Char (a % 4 * 16 + b / 16), b64Char (b % 16 * 4), '=']
  | a :: b :: c :: rest =>
    b64Char (a / 4) :: b64Char (a % 4 * 16 + b / 16) ::
    b64Char (b % 16 * 4 + c / 64) :: b64Char (c % 64) :: b64Chars rest

/-- UTF-8 bytes of one character. -/
def charUtf8 (c : Char) : List Nat :=
  let n := c.toNat
  if n < 128 then [n]
  else if n < 2048 then [192 + n / 64, 128 + n % 64]
  else if n < 65536 then [224 + n / 4096, 128 + n / 64 % 64, 128 + n % 64]
  else [240 + n / 262144, 128 + n / 4096 % 64, 128 + n / 64 % 64, 128 + n % 64]

/-- UTF-8 bytes of a string, as str::as_bytes exposes them. -/
def utf8Bytes (s : String) : List Nat :=
  (s.data.map charUtf8).flatten

/-- Salt appended before hashing, PASSWORD_SALT of src/crypto/hash.rs. -/
def PASSWORD_SALT : String := "__simple_password_salt__"

/-- sha256_string of src/crypto/hash.rs: SHA-256 then Base64. -/
def sha256_string (s : String) : String :=
  String.mk (b64Chars (sha256Bytes (utf8Bytes s)))

/-- sha256_password of src/crypto/hash.rs: salt then hash. -/
def sha256_password (password : String) : String :=
  sha256_string (password ++ PASSWORD_SALT)

/-! ## Helper lemmas about the wrapping counters and the invariant -/

lemma wrapAdd1_small {n : Nat} (h : n + 1 < USIZE) : wrapAdd1 n = n + 1 := by
  unfold wrapAdd1
  exact Nat.mod_eq_of_lt h

lemma wrapSub1_pos {n : Nat} (h1 : 1 ≤ n) (h2 : n < USIZE) : wrapSub1 n = n - 1 := by
  unfold wrapSub1 USIZE at *
  omega

lemma inv_add {c : State} {name : String} (h : Inv c) (hn : name ∉ c.names)
    (hb : c.names.card + 1 < USIZE) : Inv (c.add_connection name) := by
  obtain ⟨h1, h2, h3⟩ := h
  have hgle : c.num_guest ≤ c.names.card := h2 ▸ Finset.card_filter_le _ _
  have hule : c.num_user ≤ c.names.card := h3 ▸ Finset.card_filter_le _ _
  have hcard : (insert name c.names).card = c.names.card + 1 :=
    Finset.card_insert_of_not_mem hn
  by_cases hg : startsWithGuest name = true
  · have hnp : name ∉ c.names.filter (fun n => startsWithGuest n = true) := by
      intro hmem
      exact hn (Finset.mem_filter.mp hmem).1
    have e1 : c.add_connection name =
        ⟨insert name c.names, c.num_user, wrapAdd1 c.num_guest⟩ := by
      unfold State.add_connection
      rw [if_pos hg]
    rw [e1]
    unfold Inv
    dsimp only
    rw [Finset.filter_insert, Finset.filter_insert, if_pos hg,
        if_neg (by simp [hg]), hcard, Finset.card_insert_of_not_mem hnp,
        wrapAdd1_small (by omega)]
    exact ⟨by omega, by omega, h3⟩
  · have hnp : name ∉ c.names.filter (fun n => startsWithGuest n = false) := by
      intro hmem
      exact hn (Finset.mem_filter.mp hmem).1
    have e1 : c.add_connection name =
        ⟨insert name c.names, wrapAdd1 c.num_user, c.num_guest⟩ := by
      unfold State.add_connection
      rw [if_neg hg]
    rw [e1]
    unfold Inv
    dsimp only
    rw [Finset.filter_insert, Finset.filter_insert, if_neg hg,
        if_pos (by revert hg; cases startsWithGuest name <;> simp),
        hcard, Finset.card_insert_of_not_mem hnp, wrapAdd1_small (by omega)]
    exact ⟨by omega, h2, by omega⟩

lemma inv_leave {c : State} {name : String} (h : Inv c) (hn : name ∈ c.names)
    (hb : c.names.card < USIZE) : Inv (c.leave_user name) := by
  obtain ⟨h1, h2, h3⟩ := h
  have hgle : c.num_guest ≤ c.names.card := h2 ▸ Finset.card_filter_le _ _
  have hule : c.num_user ≤ c.names.card := h3 ▸ Finset.card_filter_le _ _
  have hcard : (c.names.erase name).card = c.names.card - 1 :=
    Finset.card_erase_of_mem hn
  have hcpos : 1 ≤ c.names.card := Finset.card_pos.mpr ⟨name, hn⟩
  by_cases hg : startsWithGuest name = true
  · have hmemp : name ∈ c.names.filter (fun n => startsWithGuest n = true) :=
      Finset.mem_filter.mpr ⟨hn, hg⟩
    have hgpos : 1 ≤ c.num_guest := by
      rw [h2]
      exact Finset.card_pos.mpr ⟨name, hmemp⟩
    have hnq : name ∉ c.names.filter (fun n => startsWithGuest n = false) := by
      intro hmem
      have := (Finset.mem_filter.mp hmem).2
      simp [hg] at this
    have e1 : c.leave_user name =
        ⟨c.names.erase name, c.num_user, wrapSub1 c.num_guest⟩ := by
      unfold State.leave_user
      rw [if_pos hg]
    rw [e1]
    unfold Inv
    dsimp only
    rw [Finset.filter_erase, Finset.filter_erase, Finset.erase_eq_of_not_mem hnq,
        hcard, Finset.card_erase_of_mem hmemp, wrapSub1_pos hgpos (by omega)]
    exact ⟨by omega, by omega, h3⟩
  · have hg' : startsWithGuest name = false := by
      revert hg
      cases startsWithGuest name <;> simp
    have hmemq : name ∈ c.names.filter (fun n => startsWithGuest n = false) :=
      Finset.mem_filter.mpr ⟨hn, hg'⟩
    have hupos : 1 ≤ c.num_user := by
      rw [h3]
      exact Finset.card_pos.mpr ⟨name, hmemq⟩
    have hnp : name ∉ c.names.filter (fun n => startsWithGuest n = true) := by
      intro hmem
      have := (Finset.mem_filter.mp hmem).2
      simp [hg'] at this
    have e1 : c.leave_user name =
        ⟨c.names.erase name, wrapSub1 c.num_user, c.num_guest⟩ := by
      unfold State.leave_user
      rw [if_neg hg]
    rw [e1]
    unfold Inv
    dsimp only
    rw [Finset.filter_erase, Finset.filter_erase, Finset.erase_eq_of_not_mem hnp,
        hcard, Finset.card_erase_of_mem hmemq, wrapSub1_pos hupos (by omega)]
    exact ⟨by omega, h2, by omega⟩

/-! ## Claim theorems -/

/-- Claim C1, counterexample: the membership invariant is not preserved by
add_connection as the claim states it for every operation invocation. On
the consistent channel holding exactly the member alice, adding alice
again increments num_user without growing the set, so the invariant
breaks. -/
theorem add_connection_breaks_membership_invariant :
    Inv (⟨{"alice"}, 1, 0⟩ : State) ∧
    ¬ Inv (State.add_connection ⟨{"alice"}, 1, 0⟩ "alice") := by
  constructor <;> decide

/-- Claim C1, amended: every channel operation preserves the membership
invariant under the preconditions its call sites are meant to establish,
namely that an added id is not yet a member, a left id is a member, the
guest id synthesized by the retry loop is fresh and guest-tagged, and an
account login happens from a current id that is a member while the target
id is at most that same member; counters stay below the usize modulus. -/
theorem membership_invariant_preservation_guarded :
    ∀ c : State, Inv c → c.names.card + 1 < USIZE →
      (∀ name, name ∉ c.names → Inv (c.add_connection name)) ∧
      (∀ name, name ∈ c.names → Inv (c.leave_user name)) ∧
      (∀ gid, gid ∉ c.names → Inv (c.connect_guest gid).2) ∧
      (∀ li uid cur db, li.id = some uid → cur ∈ c.names →
        (uid ∉ c.names ∨ uid = cur) → Inv (c.connect_user li cur db).2) := by
  intro c h hb
  refine ⟨fun name hn => inv_add h hn hb, fun name hn => inv_leave h hn (by omega),
          fun gid hg => ?_, fun li uid cur db hid hcur huid => ?_⟩
  · unfold State.connect_guest
    by_cases hcap : c.num_guest ≥ NUM_MAX_GUEST
    · simpa [hcap] using h
    · simpa [hcap] using inv_add h hg hb
  · unfold State.connect_user
    by_cases hcap : c.num_user ≥ NUM_MAX_USER
    · simpa [hcap] using h
    · rw [hid]
      cases hpw : li.password with
      | none => simpa [hcap] using h
      | some pw =>
        cases hq : login_query db uid pw with
        | error e => simpa [hcap, hq] using h
        | ok s =>
          have hleave : Inv (c.leave_user cur) := inv_leave h hcur (by omega)
          have hcards : (c.leave_user cur).names = c.names.erase cur := by
            unfold State.leave_user
            by_cases hg : startsWithGuest cur = true <;> simp [hg]
          have hfresh : uid ∉ (c.leave_user cur).names := by
            rw [hcards]
            intro hmem
            rcases huid with h1 | h1
            · exact h1 (Finset.mem_of_mem_erase hmem)
            · exact (Finset.ne_of_mem_erase hmem) h1
          have hbound : (c.leave_user cur).names.card + 1 < USIZE := by
            rw [hcards, Finset.card_erase_of_mem hcur]
            omega
          simpa [hcap, hq] using inv_add hleave hfresh hbound

/-- Witness for the amended claim C1 at a concrete consistent channel:
leaving the present member alice preserves the invariant. -/
theorem membership_invariant_preservation_guarded_witness :
    Inv (⟨{"alice"}, 1, 0⟩ : State) ∧
    ({"alice"} : Finset String).card + 1 < USIZE ∧
    "alice" ∈ ({"alice"} : Finset String) ∧
    Inv (State.leave_user ⟨{"alice"}, 1, 0⟩ "alice") :=
  ⟨by decide, by decide, by decide,
    (membership_invariant_preservation_guarded ⟨{"alice"}, 1, 0⟩
      (by decide) (by decide)).2.1 "alice" (by decide)⟩

/-- Claim C2, counterexample: on a registry where alice is a member of
public and dev exists, a successful goto from public to dev replies Ok dev
but leaves both membership states exactly as they were — alice is still in
public and not in dev — and publishes nothing at all on the old channel
bus, so no departure is observable there. -/
theorem goto_leaves_membership_and_old_bus_untouched :
    (handle_goto [("public", ⟨{"alice"}, 1, 0⟩), ("dev", ⟨∅, 0, 0⟩)]
        "public" "dev").reply = .ok "dev" ∧
    (handle_goto [("public", ⟨{"alice"}, 1, 0⟩), ("dev", ⟨∅, 0, 0⟩)]
        "public" "dev").oldEvents = [] ∧
    getChannelState (handle_goto [("public", ⟨{"alice"}, 1, 0⟩), ("dev", ⟨∅, 0, 0⟩)]
        "public" "dev").registryAfter "public" = some ⟨{"alice"}, 1, 0⟩ ∧
    getChannelState (handle_goto [("public", ⟨{"alice"}, 1, 0⟩), ("dev", ⟨∅, 0, 0⟩)]
        "public" "dev").registryAfter "dev" = some ⟨∅, 0, 0⟩ :=
  ⟨rfl, rfl, rfl, rfl⟩

/-- Claim C2, amended: for every session on channel C that sends a GotoReq
naming an existing channel D, the handler replies GotoRes Ok D, switches
the session to D, and publishes exactly one Connected on the bus of D and
nothing on the bus of C; the membership of both channels is left
unchanged, and no departure is published. -/
theorem goto_effect_characterization :
    ∀ (reg : Registry) (cur target : String) (st : State),
      getChannelState reg target = some st →
      handle_goto reg cur target =
        ⟨.ok target, [], [.Connected ⟨⟩], reg, target⟩ := by
  intro reg cur target st h
  unfold handle_goto
  rw [h]

/-- Witness for the amended claim C2 at a concrete registry. -/
theorem goto_effect_characterization_witness :
    getChannelState [("dev", (⟨∅, 0, 0⟩ : State))] "dev" = some ⟨∅, 0, 0⟩ ∧
    handle_goto [("dev", (⟨∅, 0, 0⟩ : State))] "public" "dev" =
      ⟨.ok "dev", [], [.Connected ⟨⟩], [("dev", ⟨∅, 0, 0⟩)], "dev"⟩ :=
  ⟨rfl, goto_effect_characterization [("dev", ⟨∅, 0, 0⟩)] "public" "dev" ⟨∅, 0, 0⟩ rfl⟩

/-- Claim C3: leave_user is not a silent no-op on an absent id. On the
empty channel, leaving the absent id alice still decrements num_user,
which underflows from zero and (in release arithmetic) wraps to the
largest usize, so the state is changed and the operation is not
idempotent. -/
theorem leave_user_absent_underflows :
    State.leave_user ⟨∅, 0, 0⟩ "alice" = ⟨∅, USIZE - 1, 0⟩ ∧
    State.leave_user ⟨∅, 0, 0⟩ "alice" ≠ ⟨∅, 0, 0⟩ := by
  constructor <;> decide

/-- Claim C4: decoding is not total on client-caused faults. The
well-formed JSON object carrying the known type Message but no msg field
does not make from_str return None: the unwrap on the serde result
panics, crashing the session task. -/
theorem from_str_missing_field_panics :
    PacketType.from_str (Json.obj [("type", Json.str "Message")]) = Decoded.panicked :=
  rfl

/-- Claim C5: registration validation of User::insert. The insertion
fails, leaving the store unchanged, exactly when the id carries the guest
tag or begins with root, or the password hash is shorter than four bytes,
or the id duplicates an existing row; otherwise it succeeds and appends
exactly the given record. -/
theorem user_insert_validation :
    ∀ (u : User) (db : Db),
      ((startsWithGuest u.id || startsWithRoot u.id ||
        decide (u.password.utf8ByteSize < 4) ||
        db.any (fun r => r.id == u.id)) = true →
        ∃ e, u.insert db = (.error e, db)) ∧
      ((startsWithGuest u.id || startsWithRoot u.id ||
        decide (u.password.utf8ByteSize < 4) ||
        db.any (fun r => r.id == u.id)) = false →
        u.insert db = (.ok (), db ++ [u])) := by
  intro u db
  constructor <;> intro h
  · by_cases h1 : (startsWithGuest u.id || startsWithRoot u.id) = true
    · exact ⟨"Reserved id format", by unfold User.insert; rw [if_pos h1]⟩
    · by_cases h2 : u.password.utf8ByteSize < 4
      · exact ⟨"too short password! (password >= 4)",
          by unfold User.insert; rw [if_neg h1, if_pos h2]⟩
      · have h3 : db.any (fun r => r.id == u.id) = true := by
          simp only [Bool.or_eq_true, decide_eq_true_eq] at h h1
          tauto
        exact ⟨"Failed to insert a new user: duplicate id",
          by unfold User.insert; rw [if_neg h1, if_neg h2, if_pos h3]⟩
  · simp only [Bool.or_eq_false_iff, decide_eq_false_iff_not] at h
    unfold User.insert
    rw [if_neg (by simp [h.1.1.1, h.1.1.2]), if_neg h.1.2, if_neg (by simp [h.2])]

/-- Witness for claim C5: inserting a fresh valid record into the seeded
store succeeds and appends exactly that record. -/
theorem user_insert_validation_witness :
    (startsWithGuest "alice" || startsWithRoot "alice" ||
      decide (("hhhh" : String).utf8ByteSize < 4) ||
      initial_db.any (fun r => r.id == "alice")) = false ∧
    User.insert ⟨"alice", "hhhh", none, none⟩ initial_db =
      (.ok (), initial_db ++ [⟨"alice", "hhhh", none, none⟩]) :=
  ⟨by decide, (user_insert_validation ⟨"alice", "hhhh", none, none⟩ initial_db).2 (by decide)⟩

/-- Claim C6: the startup seed row. The store holds exactly one row with
id root and bio root account, but its password column is the literal
string alpine, not the salted Base64 SHA-256 digest that hashing alpine
produces, so the seeded credential is not the hash the spec names (and
the shipped client always hashes before sending, so this row can never
authenticate). -/
theorem root_seed_password_unhashed :
    initial_db = [rootSeedRow] ∧
    rootSeedRow.password = "alpine" ∧
    rootSeedRow.bio = some "root account" ∧
    sha256_password "alpine" = "RBZkxHb64eFY3oh/JzXf5bD3yKOgBpS48Idp/okuT64=" ∧
    rootSeedRow.password ≠ sha256_password "alpine" :=
  ⟨rfl, rfl, rfl, by decide, by decide⟩

/-- Claim C7: frame round-trip. Decoding the tagged serialization of any
packet of the taxonomy yields the same packet back. -/
theorem packet_roundtrip :
    ∀ p : PacketType, PacketType.from_str p.as_json = .parsed p := by
  intro p
  cases p with
  | RegisterReq r =>
    obtain ⟨⟨i, pw, bio, loc⟩⟩ := r
    cases bio <;> cases loc <;> rfl
  | RegisterRes r =>
    obtain ⟨res⟩ := r
    cases res <;> rfl
  | LoginReq r =>
    obtain ⟨⟨g, i, pw⟩⟩ := r
    cases i <;> cases pw <;> rfl
  | LoginRes r =>
    obtain ⟨res⟩ := r
    cases res <;> rfl
  | FetchReq r => rfl
  | FetchRes r =>
    obtain ⟨i, res⟩ := r
    cases res <;> rfl
  | GotoReq r => rfl
  | GotoRes r =>
    obtain ⟨res⟩ := r
    cases res <;> rfl
  | Connected r => rfl
  | Message m => rfl
  | Exit r => rfl

/-! ## Helper lemmas for the subscriber task -/

lemma run_cons_to {b b' : Bool} {ev : BusEvent} {s : String}
    (hstep : subscriber_step b ev s = (b', none)) (rest : List (BusEvent × String)) :
    subscriber_run b ((ev, s) :: rest) = subscriber_run b' rest := by
  have h := congrArg (fun st : Bool × Option Message =>
    match st with
    | (c', some m) => m :: subscriber_run c' rest
    | (c', none) => subscriber_run c' rest) hstep
  exact h

lemma run_cons_skip {b : Bool} {ev : BusEvent} {s : String}
    (hstep : subscriber_step b ev s = (b, none)) (rest : List (BusEvent × String)) :
    subscriber_run b ((ev, s) :: rest) = subscriber_run b rest :=
  run_cons_to hstep rest

lemma run_cons_emit {b : Bool} {ev : BusEvent} {s : String} {m' : Message}
    (hstep : subscriber_step b ev s = (b, some m')) (rest : List (BusEvent × String)) :
    subscriber_run b ((ev, s) :: rest) = m' :: subscriber_run b rest := by
  have h := congrArg (fun st : Bool × Option Message =>
    match st with
    | (c', some m) => m :: subscriber_run c' rest
    | (c', none) => subscriber_run c' rest) hstep
  exact h

lemma subscriber_run_true_mem {m : Message} :
    ∀ tr : List (BusEvent × String), m ∈ subscriber_run true tr →
      ∃ t1 s t2, tr = t1 ++ (BusEvent.pkt (.Message m), s) :: t2 ∧ m.id ≠ s := by
  intro tr
  induction tr with
  | nil =>
    intro h
    simp [subscriber_run] at h
  | cons hd rest ih =>
    obtain ⟨ev, s⟩ := hd
    intro h
    cases ev
    case pkt p =>
      cases p
      case Message m' =>
        by_cases hs : s = m'.id
        · rw [run_cons_skip (by simp [subscriber_step, hs]) rest] at h
          obtain ⟨t1, s', t2, he, hne⟩ := ih h
          exact ⟨(BusEvent.pkt (.Message m'), s) :: t1, s', t2, by rw [he]; rfl, hne⟩
        · rw [run_cons_emit (show subscriber_step true (BusEvent.pkt (.Message m')) s =
            (true, some m') from by simp [subscriber_step, hs]) rest] at h
          rcases List.mem_cons.mp h with h1 | h1
          · subst h1
            exact ⟨[], s, rest, rfl, fun hc => hs hc.symm⟩
          · obtain ⟨t1, s', t2, he, hne⟩ := ih h1
            exact ⟨(BusEvent.pkt (.Message m'), s) :: t1, s', t2, by rw [he]; rfl, hne⟩
      all_goals
        rw [run_cons_skip rfl rest] at h
        obtain ⟨t1, s', t2, he, hne⟩ := ih h
        exact ⟨(_, s) :: t1, s', t2, by rw [he]; rfl, hne⟩
    case lagged =>
      rw [run_cons_skip rfl rest] at h
      obtain ⟨t1, s', t2, he, hne⟩ := ih h
      exact ⟨(BusEvent.lagged, s) :: t1, s', t2, by rw [he]; rfl, hne⟩

lemma subscriber_run_false_mem {m : Message} :
    ∀ tr : List (BusEvent × String), m ∈ subscriber_run false tr →
      ∃ t1 s t2, tr = t1 ++ (BusEvent.pkt (.Message m), s) :: t2 ∧
        (∃ e ∈ t1, isConnEv e.1 = true) ∧ m.id ≠ s := by
  intro tr
  induction tr with
  | nil =>
    intro h
    simp [subscriber_run] at h
  | cons hd rest ih =>
    obtain ⟨ev, s⟩ := hd
    intro h
    cases ev
    case pkt p =>
      cases p
      case Connected c' =>
        rw [run_cons_to (show subscriber_step false (BusEvent.pkt (.Connected c')) s =
          (true, none) from rfl) rest] at h
        obtain ⟨t1, s', t2, he, hne⟩ := subscriber_run_true_mem rest h
        exact ⟨(BusEvent.pkt (.Connected c'), s) :: t1, s', t2, by rw [he]; rfl,
          ⟨(BusEvent.pkt (.Connected c'), s), List.mem_cons_self _ _, rfl⟩, hne⟩
      all_goals
        rw [run_cons_skip rfl rest] at h
        obtain ⟨t1, s', t2, he, hc, hne⟩ := ih h
        exact ⟨(_, s) :: t1, s', t2, by rw [he]; rfl,
          ⟨hc.choose, List.mem_cons_of_mem _ hc.choose_spec.1, hc.choose_spec.2⟩, hne⟩
    case lagged =>
      rw [run_cons_skip rfl rest] at h
      obtain ⟨t1, s', t2, he, hc, hne⟩ := ih h
      exact ⟨(BusEvent.lagged, s) :: t1, s', t2, by rw [he]; rfl,
        ⟨hc.choose, List.mem_cons_of_mem _ hc.choose_spec.1, hc.choose_spec.2⟩, hne⟩

lemma subscriber_run_false_nil :
    ∀ tr : List (BusEvent × String), (∀ e ∈ tr, isConnEv e.1 = false) →
      subscriber_run false tr = [] := by
  intro tr
  induction tr with
  | nil => intro _; rfl
  | cons hd rest ih =>
    obtain ⟨ev, s⟩ := hd
    intro h
    have hrest : ∀ e ∈ rest, isConnEv e.1 = false :=
      fun e he => h e (List.mem_cons_of_mem _ he)
    cases ev
    case pkt p =>
      cases p
      case Connected c' =>
        have := h (BusEvent.pkt (.Connected c'), s) (List.mem_cons_self _ _)
        simp [isConnEv] at this
      all_goals
        rw [run_cons_skip rfl rest]
        exact ih hrest
    case lagged =>
      rw [run_cons_skip rfl rest]
      exact ih hrest

/-- Claim C8: broadcast gating and self-skip. Over every trace of bus
events (each paired with the id cell value the iteration observes), a
subscriber spawned with the flag down forwards nothing when no Connected
ever arrives, and every message it does forward sits at a trace position
strictly after some Connected and carries an id different from the cell
value observed at that position. -/
theorem subscriber_gating_and_self_skip :
    ∀ tr : List (BusEvent × String),
      ((∀ e ∈ tr, isConnEv e.1 = false) → subscriber_run false tr = []) ∧
      (∀ m ∈ subscriber_run false tr,
        ∃ t1 s t2, tr = t1 ++ (BusEvent.pkt (.Message m), s) :: t2 ∧
          (∃ e ∈ t1, isConnEv e.1 = true) ∧ m.id ≠ s) :=
  fun tr => ⟨subscriber_run_false_nil tr, fun _ hm => subscriber_run_false_mem tr hm⟩

/-- Witness for claim C8: on the trace holding one message and no
Connected, the subscriber forwards nothing. -/
theorem subscriber_gating_and_self_skip_witness :
    (∀ e ∈ [(BusEvent.pkt (.Message ⟨"bob", "hi", false⟩), "alice")], isConnEv e.1 = false) ∧
    subscriber_run false [(BusEvent.pkt (.Message ⟨"bob", "hi", false⟩), "alice")] = [] :=
  ⟨by decide,
    (subscriber_gating_and_self_skip
      [(BusEvent.pkt (.Message ⟨"bob", "hi", false⟩), "alice")]).1 (by decide)⟩

/-- Claim C9: the account-login success path of session_task applies
leave_user to whatever string the id cell holds, in particular the
initial empty string, which is not guest-tagged; the channel state then
passes through leave_user of that string, whose num_user decrement
underflows whenever num_user is zero, wrapping to the largest usize (a
debug build aborts at this subtraction instead). -/
theorem account_login_underflow_on_empty_slot :
    ∀ (c : State) (uid pw s gid : String) (db : Db),
      c.num_user = 0 → "" ∉ c.names →
      login_query db uid pw = .ok s →
      startsWithGuest "" = false ∧
      handle_login c "" ⟨false, some uid, some pw⟩ gid db =
        (.ok s, (c.leave_user "").add_connection uid,
          [.Message (Message.connection s), .Connected ⟨⟩]) ∧
      (c.leave_user "").num_user = USIZE - 1 := by
  intro c uid pw s gid db h0 hmem hq
  have e1 : c.leave_user "" = ⟨c.names.erase "", wrapSub1 c.num_user, c.num_guest⟩ := by
    unfold State.leave_user
    rw [if_neg (by decide)]
  refine ⟨by decide, ?_, ?_⟩
  · have hng : ¬ ((Login.mk false (some uid) (some pw)).guest = true) := by simp
    have hcap : ¬ (c.num_user ≥ NUM_MAX_USER) := by
      rw [h0]
      decide
    unfold handle_login
    rw [if_neg hng, if_neg hcap]
    dsimp only
    rw [hq]
  · rw [e1]
    dsimp only
    rw [h0]
    decide

/-- Witness for claim C9: the empty channel with the seeded store; the
login of root with the seeded password column succeeds and the decrement
wraps. -/
theorem account_login_underflow_on_empty_slot_witness :
    (⟨∅, 0, 0⟩ : State).num_user = 0 ∧
    "" ∉ (⟨∅, 0, 0⟩ : State).names ∧
    login_query initial_db "root" "alpine" = .ok "root" ∧
    ((⟨∅, 0, 0⟩ : State).leave_user "").num_user = USIZE - 1 :=
  ⟨rfl, by decide, rfl,
    (account_login_underflow_on_empty_slot ⟨∅, 0, 0⟩ "root" "alpine" "root" "g"
      initial_db rfl (by decide) rfl).2.2⟩

/-- Claim C10: the Message arm publishes the received packet to the
current bus exactly as received, for every message and hence also for an
id the client did not log in as; and a peer subscriber whose id cell
equals that id drops the message through the self-skip even with its
gate up. -/
theorem message_arm_forwards_unchecked :
    ∀ (m : Message) (s : String),
      message_arm m = [PacketType.Message m] ∧
      (m.id = s → subscriber_run true [(BusEvent.pkt (.Message m), s)] = []) := by
  intro m s
  refine ⟨rfl, fun h => ?_⟩
  rw [run_cons_to (show subscriber_step true (BusEvent.pkt (.Message m)) s = (true, none)
    from by simp [subscriber_step, h]) []]
  rfl

/-- Witness for claim C10: a forged message carrying the id alice is
published unchanged and dropped by the peer whose cell holds alice. -/
theorem message_arm_forwards_unchecked_witness :
    (Message.mk "alice" "x" false).id = "alice" ∧
    message_arm ⟨"alice", "x", false⟩ = [PacketType.Message ⟨"alice", "x", false⟩] ∧
    subscriber_run true [(BusEvent.pkt (.Message ⟨"alice", "x", false⟩), "alice")] = [] :=
  ⟨rfl, (message_arm_forwards_unchecked ⟨"alice", "x", false⟩ "alice").1,
    (message_arm_forwards_unchecked ⟨"alice", "x", false⟩ "alice").2 rfl⟩

end RsChat
